import Mathlib

/-!
Verification of the banking ledger engine: shallow embedding of the
transfer orchestrator, the ledger execution primitive, the transfer
reconciliation worker, the regulator notifier, the per-user concurrency
limiter and the settlement-gateway client, together with theorems about
their behaviour.

Amounts are modelled as scaled integers (the source uses exact decimals,
never floating point), identifiers as naturals, and repository state as
an explicit record threaded through each operation.  Observable side
effects (repository reads and writes, atomic execution, webhook calls)
are recorded in an explicit event trace so that statements such as
"performs no account lookup" are expressible as facts about the trace.
-/

namespace Bank

/-- Lower-case transfer status strings used at the settlement-gateway
boundary (models.TransferStatusPending and friends). -/
def TransferStatusPending : String := "pending"

/-- Lower-case status string for a completed transfer at the gateway. -/
def TransferStatusCompleted : String := "completed"

/-- Lower-case status string for a failed transfer at the gateway. -/
def TransferStatusFailed : String := "failed"

/-! ## Per-user concurrency limiter (concurrent_limiter_service.go) -/

/-- State of the per-user concurrency limiter: the configured limit and
the per-user counter map (an association list keyed by user id; an
absent key reads as zero, matching the Go map default). -/
structure UserConcurrentLimiter where
  limit : Nat
  count : List (Nat × Nat)
deriving DecidableEq

/-- Current counter for a user (zero when the user has no entry, as in
the Go map read). -/
def UserConcurrentLimiter.getCount (l : UserConcurrentLimiter) (u : Nat) : Nat :=
  match l.count.find? (fun p => p.1 == u) with
  | some p => p.2
  | none => 0

/-- Increment from concurrent_limiter_service.go: bump the counter for
the user and return the new value.  The stored limit is not consulted. -/
def UserConcurrentLimiter.Increment (l : UserConcurrentLimiter) (u : Nat) :
    Nat × UserConcurrentLimiter :=
  let c := l.getCount u + 1
  (c, { l with count := (u, c) :: l.count.filter (fun p => p.1 != u) })

/-- Decrement from concurrent_limiter_service.go: remove the entry when
the counter is at most one, otherwise decrease it. -/
def UserConcurrentLimiter.Decrement (l : UserConcurrentLimiter) (u : Nat) :
    UserConcurrentLimiter :=
  if l.getCount u ≤ 1 then
    { l with count := l.count.filter (fun p => p.1 != u) }
  else
    { l with count := (u, l.getCount u - 1) :: l.count.filter (fun p => p.1 != u) }

/-! ## Settlement-gateway client (NorthWindService) -/

/-- Structured error detail carried by a non-2xx gateway response body
(dto.ErrorDetail). -/
structure ErrorDetail where
  code : String
  message : String
  requestID : String
deriving DecidableEq

/-- Error construction for non-2xx gateway responses, from parseError in
the gateway client source.  JSON decoding of the body is abstracted as a
decoder argument: when the body decodes as a structured error response
the message field becomes the error, otherwise a generic string is built
from the http status code and the raw body. -/
def parseError (decode : String → Option ErrorDetail) (status : Nat) (body : String) :
    String :=
  match decode body with
  | some e => e.message
  | none => "northwind error (" ++ toString status ++ "): " ++ body

/-- A payload sent to the gateway, abstracted as a key-value map. -/
def Payload : Type := List (String × String)

/-- An http request value as built by the client (method, url and the
marshalled body, when any).  Building a request performs no network
activity. -/
structure HttpRequest where
  method : String
  url : String
  body : Option String
deriving DecidableEq

/-- Observable network effects of the gateway client: executing a
request through the underlying http client. -/
inductive ClientEffect
  | httpDo (method url : String)
deriving DecidableEq

/-- Request construction from newRequest in the gateway client: marshal
the body when present and build the request value; marshalling failure
is the only error path and no network call happens here. -/
def newRequest (marshal : Payload → Option String) (method url : String)
    (body : Option Payload) : Except String HttpRequest :=
  match body with
  | none => .ok { method := method, url := url, body := none }
  | some p =>
    match marshal p with
    | none => .error "marshal request"
    | some b => .ok { method := method, url := url, body := some b }

/-- Executing a request through the client records an observable http
effect (the do helper in the gateway client source). -/
def doRequest (req : HttpRequest) (trace : List ClientEffect) : List ClientEffect :=
  trace ++ [ClientEffect.httpDo req.method req.url]

/-- Notify from the gateway client source: build the webhook request
from the payload and return nil without ever executing it; the only
error path is request construction.  The effect trace is returned so
the absence of any http effect is observable. -/
def Notify (marshal : Payload → Option String) (webhookURL : String) (payload : Payload)
    (trace : List ClientEffect) : Option String × List ClientEffect :=
  match newRequest marshal "POST" webhookURL (some payload) with
  | .error e => (some ("failed to build request: " ++ e), trace)
  | .ok _ => (none, trace)

/-- GetTransferStatus from the gateway client: build the request,
execute it (an observable http effect), decode the status on 200 and
surface parseError otherwise.  The http exchange is abstracted as a
responder function from requests to status code and body. -/
def GetTransferStatusClient (respond : HttpRequest → Nat × String)
    (decodeStatus : String → Option String) (decodeErr : String → Option ErrorDetail)
    (baseURL transferID : String) (trace : List ClientEffect) :
    Except String String × List ClientEffect :=
  match newRequest (fun _ => none) "GET"
      (baseURL ++ "/external/transfers/" ++ transferID) none with
  | .error e => (.error e, trace)
  | .ok req =>
    let trace2 := doRequest req trace
    let code := (respond req).1
    let body := (respond req).2
    if code == 200 then
      match decodeStatus body with
      | some st => (.ok st, trace2)
      | none => (.error "unmarshal response", trace2)
    else
      (.error (parseError decodeErr code body), trace2)

/-! ## Data model (models package; see also the spec data-model section) -/

/-- Transfer lifecycle status. -/
inductive TStatus
  | pending
  | completed
  | failed
deriving DecidableEq

/-- Account lifecycle status. -/
inductive AccountStatus
  | active
  | inactive
  | closed
deriving DecidableEq

/-- An account row: identity, owning user, exact balance (scaled
integer) and lifecycle status. -/
structure Account where
  id : Nat
  userID : Nat
  balance : Int
  status : AccountStatus
deriving DecidableEq

/-- Modelled from the spec: Account.IsActive from the missing models
package; an account is active exactly when its lifecycle status is
active (both accounts must be in active status for a transfer). -/
def Account.IsActive (a : Account) : Bool :=
  a.status == AccountStatus.active

/-- A user row: identity and whether the user holds an administrative
role (used by the transfer authorization check). -/
structure User where
  id : Nat
  isAdmin : Bool
deriving DecidableEq

/-- An immutable ledger entry: one leg of a transfer, with direction,
amount, balance snapshots, description, reference and status. -/
structure Transaction where
  id : Nat
  accountID : Nat
  amount : Int
  isDebit : Bool
  balanceBefore : Int
  balanceAfter : Int
  description : String
  reference : String
  status : TStatus
deriving DecidableEq

/-- A transfer row: the unit of cross-account movement, with the
caller-supplied idempotency key, external identifiers, status, optional
linked transaction identifiers and the failure fields. -/
structure Transfer where
  id : Nat
  fromAccountID : Nat
  toAccountID : Nat
  amount : Int
  idempotencyKey : String
  referenceNumber : String
  transferId : String
  status : TStatus
  debitTransactionID : Option Nat
  creditTransactionID : Option Nat
  errorMessage : Option String
  failedAt : Option Nat
  description : String
  currency : String
deriving DecidableEq

/-- Modelled from the spec: Transfer.Complete from the missing models
package; mark the transfer completed and link the two produced
transaction identifiers (as asserted by the transfer service tests). -/
def Transfer.Complete (t : Transfer) (debitTxID creditTxID : Nat) : Transfer :=
  { t with
    status := TStatus.completed
    debitTransactionID := some debitTxID
    creditTransactionID := some creditTxID }

/-- Modelled from the spec: Transfer.Fail from the missing models
package; mark the transfer failed with the error text and the failure
timestamp (as asserted by the transfer service tests). -/
def Transfer.Fail (t : Transfer) (reason : String) (now : Nat) : Transfer :=
  { t with
    status := TStatus.failed
    errorMessage := some reason
    failedAt := some now }

/-- Observable repository and infrastructure effects of the transfer
services, recorded in order. -/
inductive Effect
  | findByIdempotencyKey (key : String)
  | getAccount (id : Nat)
  | getUser (id : Nat)
  | createTransfer (id : Nat)
  | lockAcquire
  | lockRelease
  | executeAtomic (fromID toID : Nat)
  | updateTransfer (id : Nat)
  | auditCreate
deriving DecidableEq

/-- Error surface of the transfer services (the named sentinel errors of
the account service plus infrastructure failures). -/
inductive TransferError
  | invalidAmount
  | sameAccountTransfer
  | transferInProgress
  | previousTransferFailed
  | accountNotFound
  | userNotFound
  | unauthorized
  | accountNotActive
  | insufficientFunds
  | lockNotAcquired
  | gatewayError
deriving DecidableEq

/-- Error text of each sentinel error, matching the substrings asserted
by the transfer service tests. -/
def TransferError.text : TransferError → String
  | .invalidAmount => "invalid amount"
  | .sameAccountTransfer => "cannot transfer to the same account"
  | .transferInProgress => "transfer is still processing"
  | .previousTransferFailed => "previous transfer failed"
  | .accountNotFound => "account not found"
  | .userNotFound => "user not found"
  | .unauthorized => "not authorized"
  | .accountNotActive => "account is not active"
  | .insufficientFunds => "insufficient funds"
  | .lockNotAcquired => "could not acquire lock"
  | .gatewayError => "gateway request failed"

/-- The store of record plus infrastructure state threaded through the
transfer services: account, user, transfer and transaction rows, the
audit-log count, id counters, the clock, distributed-lock availability
and the recorded effect trace. -/
structure Store where
  accounts : List Account
  users : List User
  transfers : List Transfer
  transactions : List Transaction
  auditLogs : Nat
  nextTransferId : Nat
  nextTxId : Nat
  now : Nat
  lockAvailable : Bool
  events : List Effect
deriving DecidableEq

/-- Repository lookup of a transfer by idempotency key
(FindByIdempotencyKey). -/
def Store.findTransferByKey (s : Store) (key : String) : Option Transfer :=
  s.transfers.find? (fun t => t.idempotencyKey == key)

/-- Repository lookup of an account by id (accountRepo.GetByID). -/
def Store.getAccount (s : Store) (i : Nat) : Option Account :=
  s.accounts.find? (fun a => a.id == i)

/-- Repository lookup of a user by id (userRepo.GetByID). -/
def Store.getUser (s : Store) (i : Nat) : Option User :=
  s.users.find? (fun u => u.id == i)

/-- Append observable effects to the trace without touching any row. -/
def Store.withEvents (s : Store) (es : List Effect) : Store :=
  { s with events := s.events ++ es }

/-- Repository update of a transfer row in place, keyed by id
(transferRepo.Update), recorded in the trace. -/
def Store.updateTransfer (s : Store) (t : Transfer) : Store :=
  { s with
    transfers := s.transfers.map (fun u => if u.id == t.id then t else u)
    events := s.events ++ [Effect.updateTransfer t.id] }

/-- Append-only audit record creation (auditRepo.Create), recorded in
the trace. -/
def Store.audit (s : Store) : Store :=
  { s with
    auditLogs := s.auditLogs + 1
    events := s.events ++ [Effect.auditCreate] }

/-! ## Ledger execution primitive -/

/-- Modelled from the spec: ExecuteAtomicTransfer from the missing
account repository — a single all-or-nothing unit that re-reads the
source balance, verifies it covers the amount, debits the source,
credits the destination and inserts the two transaction rows, or
applies none of it; it fails with insufficient funds when the re-read
balance is below the amount. -/
def ExecuteAtomicTransfer (s : Store) (fromID toID : Nat) (amount : Int)
    (fromDescription toDescription reference : String) (status : TStatus) :
    Except TransferError (Nat × Nat) × Store :=
  let s0 := s.withEvents [Effect.executeAtomic fromID toID]
  match s.getAccount fromID, s.getAccount toID with
  | some fromAccount, some toAccount =>
    if fromAccount.balance < amount then
      (.error .insufficientFunds, s0)
    else
      let debitTx : Transaction :=
        { id := s.nextTxId
          accountID := fromID
          amount := amount
          isDebit := true
          balanceBefore := fromAccount.balance
          balanceAfter := fromAccount.balance - amount
          description := fromDescription
          reference := reference
          status := status }
      let creditTx : Transaction :=
        { id := s.nextTxId + 1
          accountID := toID
          amount := amount
          isDebit := false
          balanceBefore := toAccount.balance
          balanceAfter := toAccount.balance + amount
          description := toDescription
          reference := reference
          status := status }
      let accounts2 := s.accounts.map (fun a =>
        if a.id == fromID then { a with balance := a.balance - amount }
        else if a.id == toID then { a with balance := a.balance + amount }
        else a)
      (.ok (debitTx.id, creditTx.id),
       { s0 with
         accounts := accounts2
         transactions := debitTx :: creditTx :: s.transactions
         nextTxId := s.nextTxId + 2 })
  | _, _ => (.error .accountNotFound, s0)

/-! ## Transfer orchestrator -/

/-- Input of the transfer orchestrator
(dto.TransferBetweenAccountsInput, with the administrative-role flag of
the caller carried alongside). -/
structure TransferInput where
  fromAccountID : Nat
  toAccountID : Nat
  amount : Int
  description : String
  idempotencyKey : String
  currency : String
  transferType : String
  direction : String
  userID : Nat
  callerIsAdmin : Bool

/-- The pending transfer row created by the orchestrator before
execution (the idempotency barrier). -/
def mkPendingTransfer (s : Store) (inp : TransferInput) : Transfer :=
  { id := s.nextTransferId
    fromAccountID := inp.fromAccountID
    toAccountID := inp.toAccountID
    amount := inp.amount
    idempotencyKey := inp.idempotencyKey
    referenceNumber := ""
    transferId := ""
    status := TStatus.pending
    debitTransactionID := none
    creditTransactionID := none
    errorMessage := none
    failedAt := none
    description := inp.description
    currency := inp.currency }

/-- Creation of the pending transfer row (transferRepo.Create),
recorded in the trace. -/
def Store.createTransfer (s : Store) (t : Transfer) : Store :=
  { s with
    transfers := t :: s.transfers
    nextTransferId := s.nextTransferId + 1
    events := s.events ++ [Effect.createTransfer t.id] }

/-- Modelled from the spec: the transfer orchestrator
TransferBetweenAccounts of the account service, whose implementation is
absent from the sources; validation order, the idempotency branches and
the error surface follow the orchestrator algorithm of the spec and are
pinned by the transfer service tests (validation precedes any
repository access; the idempotency lookup precedes the account loads;
authorization and active checks precede the pending-row insert; the
distributed lock guards the atomic execution; the outcome is persisted
and audited). -/
def TransferBetweenAccounts (s : Store) (inp : TransferInput) :
    Except TransferError Transfer × Store :=
  if inp.amount ≤ 0 then
    (.error .invalidAmount, s)
  else if inp.fromAccountID == inp.toAccountID then
    (.error .sameAccountTransfer, s)
  else
    let e1 := [Effect.findByIdempotencyKey inp.idempotencyKey]
    match s.findTransferByKey inp.idempotencyKey with
    | some prior =>
      match prior.status with
      | TStatus.completed => (.ok prior, s.withEvents e1)
      | TStatus.pending => (.error .transferInProgress, s.withEvents e1)
      | TStatus.failed => (.error .previousTransferFailed, s.withEvents e1)
    | none =>
      let e2 := e1 ++ [Effect.getAccount inp.fromAccountID]
      match s.getAccount inp.fromAccountID with
      | none => (.error .accountNotFound, s.withEvents e2)
      | some fromAccount =>
        let e3 := e2 ++ [Effect.getAccount inp.toAccountID]
        match s.getAccount inp.toAccountID with
        | none => (.error .accountNotFound, s.withEvents e3)
        | some toAccount =>
          if !(fromAccount.userID == inp.userID || inp.callerIsAdmin) then
            (.error .unauthorized, s.withEvents e3)
          else if !(fromAccount.IsActive && toAccount.IsActive) then
            (.error .accountNotActive, s.withEvents e3)
          else
            let e4 := e3 ++ [Effect.getUser inp.userID, Effect.getUser toAccount.userID]
            match s.getUser inp.userID, s.getUser toAccount.userID with
            | some _, some _ =>
              let t0 := mkPendingTransfer s inp
              let s1 := (s.withEvents e4).createTransfer t0
              if !s.lockAvailable then
                (.error .lockNotAcquired, s1)
              else
                let s2 := s1.withEvents [Effect.lockAcquire]
                match ExecuteAtomicTransfer s2 inp.fromAccountID inp.toAccountID
                    inp.amount ("Transfer to account: " ++ inp.description)
                    ("Transfer from account: " ++ inp.description)
                    t0.referenceNumber TStatus.completed with
                | (.ok (debitTxID, creditTxID), s3) =>
                  let t1 := t0.Complete debitTxID creditTxID
                  let s4 := ((s3.updateTransfer t1).withEvents [Effect.lockRelease]).audit
                  (.ok t1, s4)
                | (.error e, s3) =>
                  let t1 := t0.Fail e.text s.now
                  let s4 := ((s3.updateTransfer t1).withEvents [Effect.lockRelease]).audit
                  (.error e, s4)
            | _, _ => (.error .userNotFound, s.withEvents e4)

/-! ## Transfer reconciliation worker (transfer_monitoring_service.go) -/

/-- The failTransfer helper of the monitoring service: mark the transfer
failed with the reason and persist it; no retry is raised. -/
def failTransfer (s : Store) (t : Transfer) (reason : String) :
    Except TransferError Unit × Store :=
  (.ok (), s.updateTransfer (t.Fail reason s.now))

/-- The checkAndUpdateTransferStatus helper of the monitoring service:
re-read both accounts, fail the transfer when either is no longer
active or the source balance does not cover the amount, and otherwise
run the ledger execution primitive and persist the completed transfer
with the two produced transaction identifiers, plus an audit record. -/
def checkAndUpdateTransferStatus (s : Store) (t : Transfer) :
    Except TransferError Unit × Store :=
  match s.getAccount t.fromAccountID with
  | none => (.error .accountNotFound, s.withEvents [Effect.getAccount t.fromAccountID])
  | some fromAccount =>
    match s.getAccount t.toAccountID with
    | none =>
      (.error .accountNotFound,
       s.withEvents [Effect.getAccount t.fromAccountID, Effect.getAccount t.toAccountID])
    | some toAccount =>
      let s2 := s.withEvents [Effect.getAccount t.fromAccountID, Effect.getAccount t.toAccountID]
      if !(fromAccount.IsActive && toAccount.IsActive) then
        failTransfer s2 t "One or more accounts are no longer active"
      else if fromAccount.balance < t.amount then
        failTransfer s2 t "Insufficient funds"
      else
        match ExecuteAtomicTransfer s2 t.fromAccountID t.toAccountID t.amount
            ("Transfer completion: " ++ t.description)
            ("Transfer completion: " ++ t.description)
            t.referenceNumber t.status with
        | (.error e, s3) => failTransfer s3 t ("Failed to execute transfer: " ++ e.text)
        | (.ok (debitTxID, creditTxID), s3) =>
          let t1 := t.Complete debitTxID creditTxID
          (.ok (), (s3.updateTransfer t1).audit)

/-- MonitorPendingTransfers from the monitoring service: query the
gateway for the transfer status; when it reports completion, run the
completion logic (whose own result is discarded by the source),
otherwise leave the transfer pending for the next tick.  The gateway is
abstracted as a function from external transfer identifier to the
reported status (none models a request error). -/
def MonitorPendingTransfers (gateway : String → Option String) (s : Store) (t : Transfer) :
    Except TransferError Unit × Store :=
  match gateway t.transferId with
  | none => (.error .gatewayError, s)
  | some resp =>
    if resp == TransferStatusCompleted then
      (.ok (), (checkAndUpdateTransferStatus s t).2)
    else
      (.ok (), s)

/-! ## Regulator notifier (NotifyRegulatorService) -/

/-- Environment of one notifier run: for each attempt number, whether
the webhook delivery returns without error, and the wall-clock seconds
the delivery attempt itself consumes. -/
structure NotifyEnv where
  ok : Nat → Bool
  dur : Nat → Nat

/-- Audit-visible events of a notifier run: a webhook attempt being
performed, the three recorded outcomes (timeout, success, failure) and
the backoff sleep with its length in seconds. -/
inductive NotifyEvent
  | attemptPerformed (attempt : Nat)
  | auditTimeout
  | auditSuccess (attempt : Nat)
  | auditFailure (attempt : Nat)
  | slept (seconds : Int)
deriving DecidableEq

/-- The retry loop of NotifyRegulator, with the remaining iteration
budget as fuel (the source iterates attempt from one up to the retry
ceiling).  Before each attempt the remaining time is the deadline minus
the elapsed time; when it is exhausted the loop stops after recording a
timeout outcome.  A successful attempt records a success and ends the
loop; a failed attempt records a failure and sleeps attempt-many
seconds, capped at the remaining budget, before the next iteration. -/
def notifyGo (env : NotifyEnv) (timeout : Int) :
    Nat → Nat → Int → List NotifyEvent → List NotifyEvent
  | 0, _, _, log => log
  | fuel + 1, attempt, elapsed, log =>
    let remaining : Int := timeout - elapsed
    if remaining ≤ 0 then
      log ++ [NotifyEvent.auditTimeout]
    else
      let log2 := log ++ [NotifyEvent.attemptPerformed attempt]
      if env.ok attempt then
        log2 ++ [NotifyEvent.auditSuccess attempt]
      else
        let sleep : Int := min (attempt : Int) remaining
        notifyGo env timeout fuel (attempt + 1)
          (elapsed + (env.dur attempt : Int) + sleep)
          (log2 ++ [NotifyEvent.auditFailure attempt, NotifyEvent.slept sleep])

/-- NotifyRegulator with the configuration installed by
NewNotifyRegulator: a sixty-second deadline and a ceiling of five
attempts, starting at attempt one with no elapsed time. -/
def NotifyRegulator (env : NotifyEnv) : List NotifyEvent :=
  notifyGo env 60 5 1 0 []

/-- Number of webhook delivery attempts recorded in a notifier log. -/
def countAttempts (log : List NotifyEvent) : Nat :=
  (log.filter (fun e =>
    match e with
    | NotifyEvent.attemptPerformed _ => true
    | _ => false)).length

/-! ## Status polling and monitoring launch (NotifyRegulatorService) -/

/-- Lower-casing of a gateway status string (strings.ToLower in the
source), written over the character list so it evaluates in the
kernel. -/
def strToLower (s : String) : String :=
  String.mk (s.data.map Char.toLower)

/-- Whether a lower-cased gateway status is terminal (completed or
failed), the stopping condition of the polling loop. -/
def isTerminalStatus (st : String) : Bool :=
  strToLower st == TransferStatusCompleted || strToLower st == TransferStatusFailed

/-- The polling loop of PollTransferStatus, with the number of
iterations the sixty-second context deadline still allows as fuel: when
the deadline has elapsed the loop answers pending; otherwise it asks
the gateway (none models a request error, which is skipped) and stops
as soon as the lower-cased reported status is completed or failed.  The
gateway is abstracted as a function from iteration number to the
response of that poll. -/
def pollGo (gw : Nat → Option String) : Nat → Nat → String
  | 0, _ => TransferStatusPending
  | fuel + 1, i =>
    match gw i with
    | none => pollGo gw fuel (i + 1)
    | some st =>
      if isTerminalStatus st then
        st
      else
        pollGo gw fuel (i + 1)

/-- PollTransferStatus: run the polling loop from the first iteration. -/
def PollTransferStatus (gw : Nat → Option String) (fuel : Nat) : String :=
  pollGo gw fuel 0

/-- Observable outcome of one StartMonitoring run: the final status the
poll produced, and whether the audit log and the regulator notification
were invoked, with the success flag passed to the notification. -/
structure MonitoringOutcome where
  finalStatus : String
  auditLogged : Bool
  notifyAttempted : Bool
  notifySuccessFlag : Bool
deriving DecidableEq

/-- StartMonitoring: poll for the final status, audit it, and
unconditionally attempt regulator notification with the success flag
set exactly when the observed status is completed. -/
def StartMonitoring (gw : Nat → Option String) (fuel : Nat) : MonitoringOutcome :=
  let finalStatus := PollTransferStatus gw fuel
  { finalStatus := finalStatus
    auditLogged := true
    notifyAttempted := true
    notifySuccessFlag := finalStatus == TransferStatusCompleted }

/-! ## Small projection lemmas about the store -/

@[simp]
theorem getAccount_withEvents (s : Store) (es : List Effect) (i : Nat) :
    (s.withEvents es).getAccount i = s.getAccount i := rfl

@[simp]
theorem getAccount_createTransfer (s : Store) (t : Transfer) (i : Nat) :
    (s.createTransfer t).getAccount i = s.getAccount i := rfl

@[simp]
theorem withEvents_accounts (s : Store) (es : List Effect) :
    (s.withEvents es).accounts = s.accounts := rfl

@[simp]
theorem withEvents_transfers (s : Store) (es : List Effect) :
    (s.withEvents es).transfers = s.transfers := rfl

@[simp]
theorem withEvents_transactions (s : Store) (es : List Effect) :
    (s.withEvents es).transactions = s.transactions := rfl

@[simp]
theorem withEvents_now (s : Store) (es : List Effect) :
    (s.withEvents es).now = s.now := rfl

@[simp]
theorem createTransfer_accounts (s : Store) (t : Transfer) :
    (s.createTransfer t).accounts = s.accounts := rfl

@[simp]
theorem createTransfer_now (s : Store) (t : Transfer) :
    (s.createTransfer t).now = s.now := rfl

@[simp]
theorem updateTransfer_accounts (s : Store) (t : Transfer) :
    (s.updateTransfer t).accounts = s.accounts := rfl

@[simp]
theorem audit_accounts (s : Store) :
    (s.audit).accounts = s.accounts := rfl

@[simp]
theorem audit_transfers (s : Store) :
    (s.audit).transfers = s.transfers := rfl

/-! ## Sample data used by closed witness statements -/

/-- An empty store with the lock available. -/
def sampleStore0 : Store :=
  { accounts := []
    users := []
    transfers := []
    transactions := []
    auditLogs := 0
    nextTransferId := 1
    nextTxId := 1
    now := 0
    lockAvailable := true
    events := [] }

/-- A transfer input with a negative amount. -/
def inpNegAmount : TransferInput :=
  { fromAccountID := 1
    toAccountID := 2
    amount := -50
    description := "t"
    idempotencyKey := "k1"
    currency := "USD"
    transferType := "transfer"
    direction := "internal"
    userID := 7
    callerIsAdmin := false }

/-- A transfer input whose source and destination accounts coincide. -/
def inpSameAccount : TransferInput :=
  { fromAccountID := 3
    toAccountID := 3
    amount := 100
    description := "t"
    idempotencyKey := "k2"
    currency := "USD"
    transferType := "transfer"
    direction := "internal"
    userID := 7
    callerIsAdmin := false }

/-! ## Theorems -/

/-- C3: a call to the transfer orchestrator with a non-positive amount
fails immediately with the invalid-amount error, and a call with equal
source and destination accounts (and a positive amount) fails
immediately with the same-account error; in both cases the returned
store is the input store unchanged, so no repository read or write, no
transfer row and no transaction row is produced. -/
theorem transfer_precondition_validation (s : Store) (inp : TransferInput) :
    (inp.amount ≤ 0 →
      TransferBetweenAccounts s inp = (.error .invalidAmount, s)) ∧
    (0 < inp.amount → inp.fromAccountID = inp.toAccountID →
      TransferBetweenAccounts s inp = (.error .sameAccountTransfer, s)) := by
  constructor
  · intro h
    simp [TransferBetweenAccounts, h]
  · intro h1 h2
    simp [TransferBetweenAccounts, h2, not_le.mpr h1]

/-- Witness for C3: the validation theorem evaluated at a negative
amount and at a same-account input over the empty store. -/
theorem transfer_precondition_validation_witness :
    TransferBetweenAccounts sampleStore0 inpNegAmount = (.error .invalidAmount, sampleStore0) ∧
    TransferBetweenAccounts sampleStore0 inpSameAccount =
      (.error .sameAccountTransfer, sampleStore0) :=
  ⟨(transfer_precondition_validation sampleStore0 inpNegAmount).1 (by decide),
   (transfer_precondition_validation sampleStore0 inpSameAccount).2 (by decide) rfl⟩

/-- A limiter configured with a ceiling of one, with user seven already
at the ceiling. -/
def limiterAtCeiling : UserConcurrentLimiter :=
  { limit := 1, count := [(7, 1)] }

/-- Counterexample for C8: with user seven already at the configured
ceiling of one, a further Increment is admitted rather than rejected —
it returns two and stores a count of two, strictly above the limit, and
its type offers no rejection signal at all. -/
theorem increment_admits_beyond_limit_counterexample :
    (limiterAtCeiling.Increment 7).1 = 2 ∧
    ((limiterAtCeiling.Increment 7).2).getCount 7 = 2 ∧
    ¬ ((limiterAtCeiling.Increment 7).2).getCount 7 ≤ limiterAtCeiling.limit := by
  decide

/-- C8 as amended: Increment never rejects an admission attempt — for
every limiter state and user it increments the tracked count by one and
returns the new value, and its result does not depend on the configured
limit, so enforcement of the ceiling is left entirely to the caller via
the returned count. -/
theorem increment_unconditionally_admits (l : UserConcurrentLimiter) (u : Nat) :
    (l.Increment u).1 = l.getCount u + 1 ∧
    ((l.Increment u).2).getCount u = l.getCount u + 1 ∧
    ((l.Increment u).2).limit = l.limit ∧
    (∀ lim2 : Nat,
      (({ l with limit := lim2 } : UserConcurrentLimiter).Increment u).1 = (l.Increment u).1 ∧
      (({ l with limit := lim2 } : UserConcurrentLimiter).Increment u).2.count =
        ((l.Increment u).2).count) := by
  refine ⟨rfl, ?_, rfl, fun lim2 => ⟨rfl, rfl⟩⟩
  simp [UserConcurrentLimiter.Increment, UserConcurrentLimiter.getCount, List.find?]

/-- Counterexample for C9: on an unparseable body the gateway client
error is the generic string that begins with northwind error, not the
string beginning with gateway error that the claim states. -/
theorem parse_error_generic_counterexample :
    parseError (fun _ => none) 418 "bad body" = "northwind error (418): bad body" ∧
    parseError (fun _ => none) 418 "bad body" ≠ "gateway error (418): bad body" := by
  constructor
  · rfl
  · decide

/-- C9 as amended: for a non-2xx gateway response the constructed error
message is the structured body message when the body decodes as an
error response, and otherwise exactly the generic string built as
northwind error, then the http status in parentheses, then the raw
body. -/
theorem parse_error_message_selection (decode : String → Option ErrorDetail)
    (status : Nat) (body : String) :
    (∀ e, decode body = some e → parseError decode status body = e.message) ∧
    (decode body = none →
      parseError decode status body =
        "northwind error (" ++ toString status ++ "): " ++ body) := by
  constructor
  · intro e h
    simp [parseError, h]
  · intro h
    simp [parseError, h]

/-- Witness for C9: the amended statement evaluated at a decoder that
accepts and one that rejects a concrete body. -/
theorem parse_error_message_selection_witness :
    parseError (fun _ => some { code := "VALIDATION_ERROR", message := "Invalid account number", requestID := "req-123" }) 400 "irrelevant" = "Invalid account number" ∧
    parseError (fun _ => none) 404 "Not found" = "northwind error (404): Not found" :=
  ⟨(parse_error_message_selection
      (fun _ => some { code := "VALIDATION_ERROR", message := "Invalid account number", requestID := "req-123" }) 400 "irrelevant").1 _ rfl,
   (parse_error_message_selection (fun _ => none) 404 "Not found").2 rfl⟩

/-- C10: the gateway client Notify method returns nil whenever the
payload marshals, and on every input it leaves the http effect trace
unchanged — the request is built but never executed, so no webhook call
is ever performed and every delivery attempt trivially reports
success. -/
theorem notify_returns_without_http_call (marshal : Payload → Option String)
    (url : String) (p : Payload) (trace : List ClientEffect) :
    ((marshal p).isSome → (Notify marshal url p trace).1 = none) ∧
    (Notify marshal url p trace).2 = trace := by
  constructor
  · intro h
    rcases hm : marshal p with _ | b
    · rw [hm] at h; simp at h
    · simp [Notify, newRequest, hm]
  · rcases hm : marshal p with _ | b <;> simp [Notify, newRequest, hm]

/-- Witness for C10: Notify on a concrete marshallable payload returns
nil and records no http effect. -/
theorem notify_returns_without_http_call_witness :
    (Notify (fun _ => some "x") "https://webhook.local/notify" [] []).1 = none ∧
    (Notify (fun _ => some "x") "https://webhook.local/notify" [] []).2 = [] :=
  ⟨(notify_returns_without_http_call (fun _ => some "x") "https://webhook.local/notify" [] []).1 rfl,
   (notify_returns_without_http_call (fun _ => some "x") "https://webhook.local/notify" [] []).2⟩

/-- C1: when the idempotency key matches an existing transfer in
completed status, the orchestrator returns that transfer unchanged with
no error, and the only effect performed is the idempotency lookup — no
account read, no transfer creation, no atomic execution, no new
transaction row. -/
theorem idempotent_completed_replay (s : Store) (inp : TransferInput) (t : Transfer)
    (hamt : 0 < inp.amount)
    (hne : inp.fromAccountID ≠ inp.toAccountID)
    (hfind : s.findTransferByKey inp.idempotencyKey = some t)
    (hst : t.status = TStatus.completed) :
    TransferBetweenAccounts s inp =
      (.ok t, s.withEvents [Effect.findByIdempotencyKey inp.idempotencyKey]) ∧
    (TransferBetweenAccounts s inp).2.transfers = s.transfers ∧
    (TransferBetweenAccounts s inp).2.transactions = s.transactions ∧
    (TransferBetweenAccounts s inp).2.accounts = s.accounts ∧
    (TransferBetweenAccounts s inp).2.events =
      s.events ++ [Effect.findByIdempotencyKey inp.idempotencyKey] := by
  have hbe : (inp.fromAccountID == inp.toAccountID) = false := by
    simp [hne]
  have hmain : TransferBetweenAccounts s inp =
      (.ok t, s.withEvents [Effect.findByIdempotencyKey inp.idempotencyKey]) := by
    simp [TransferBetweenAccounts, not_le.mpr hamt, hbe, hfind, hst]
  refine ⟨hmain, ?_, ?_, ?_, ?_⟩ <;> rw [hmain] <;> rfl

/-- C2: when the idempotency key matches an existing transfer, a
pending prior fails with the transfer-in-progress error and a failed
prior fails with the previous-transfer-failed error; both calls return
no transfer, perform only the idempotency lookup, and execute no new
transfer (no row written, no atomic execution). -/
theorem idempotency_conflict_errors (s : Store) (inp : TransferInput) (t : Transfer)
    (hamt : 0 < inp.amount)
    (hne : inp.fromAccountID ≠ inp.toAccountID)
    (hfind : s.findTransferByKey inp.idempotencyKey = some t) :
    (t.status = TStatus.pending →
      TransferBetweenAccounts s inp =
        (.error .transferInProgress,
         s.withEvents [Effect.findByIdempotencyKey inp.idempotencyKey])) ∧
    (t.status = TStatus.failed →
      TransferBetweenAccounts s inp =
        (.error .previousTransferFailed,
         s.withEvents [Effect.findByIdempotencyKey inp.idempotencyKey])) ∧
    (TransferBetweenAccounts s inp).2.transfers = s.transfers ∧
    (TransferBetweenAccounts s inp).2.transactions = s.transactions := by
  have hbe : (inp.fromAccountID == inp.toAccountID) = false := by
    simp [hne]
  refine ⟨fun hst => ?_, fun hst => ?_, ?_, ?_⟩
  · simp [TransferBetweenAccounts, not_le.mpr hamt, hbe, hfind, hst]
  · simp [TransferBetweenAccounts, not_le.mpr hamt, hbe, hfind, hst]
  · rcases hst : t.status <;>
      simp [TransferBetweenAccounts, not_le.mpr hamt, hbe, hfind, hst]
  · rcases hst : t.status <;>
      simp [TransferBetweenAccounts, not_le.mpr hamt, hbe, hfind, hst]

/-- A completed transfer on file under key kc. -/
def sampleCompletedTransfer : Transfer :=
  { id := 10
    fromAccountID := 1
    toAccountID := 2
    amount := 100
    idempotencyKey := "kc"
    referenceNumber := ""
    transferId := ""
    status := TStatus.completed
    debitTransactionID := some 31
    creditTransactionID := some 32
    errorMessage := none
    failedAt := none
    description := "d"
    currency := "USD" }

/-- The same transfer input re-submitted under key kc. -/
def inpReplay : TransferInput :=
  { fromAccountID := 1
    toAccountID := 2
    amount := 100
    description := "d"
    idempotencyKey := "kc"
    currency := "USD"
    transferType := "transfer"
    direction := "internal"
    userID := 7
    callerIsAdmin := false }

/-- Store holding only the completed transfer. -/
def storeWithCompleted : Store :=
  { sampleStore0 with transfers := [sampleCompletedTransfer] }

/-- Store holding the same prior transfer in pending status. -/
def storeWithPending : Store :=
  { sampleStore0 with transfers := [{ sampleCompletedTransfer with status := TStatus.pending }] }

/-- Store holding the same prior transfer in failed status. -/
def storeWithFailed : Store :=
  { sampleStore0 with transfers := [{ sampleCompletedTransfer with status := TStatus.failed }] }

/-- Witness for C1: replaying key kc against the store holding the
completed transfer returns it unchanged with only the lookup effect. -/
theorem idempotent_completed_replay_witness :
    TransferBetweenAccounts storeWithCompleted inpReplay =
      (.ok sampleCompletedTransfer,
       storeWithCompleted.withEvents [Effect.findByIdempotencyKey "kc"]) :=
  (idempotent_completed_replay storeWithCompleted inpReplay sampleCompletedTransfer
    (by decide) (by decide) (by decide) rfl).1

/-- Witness for C2: replaying key kc against the pending and against
the failed prior yields the two distinct conflict errors. -/
theorem idempotency_conflict_errors_witness :
    TransferBetweenAccounts storeWithPending inpReplay =
      (.error .transferInProgress,
       storeWithPending.withEvents [Effect.findByIdempotencyKey "kc"]) ∧
    TransferBetweenAccounts storeWithFailed inpReplay =
      (.error .previousTransferFailed,
       storeWithFailed.withEvents [Effect.findByIdempotencyKey "kc"]) :=
  ⟨(idempotency_conflict_errors storeWithPending inpReplay
      { sampleCompletedTransfer with status := TStatus.pending }
      (by decide) (by decide) (by decide)).1 rfl,
   (idempotency_conflict_errors storeWithFailed inpReplay
      { sampleCompletedTransfer with status := TStatus.failed }
      (by decide) (by decide) (by decide)).2.1 rfl⟩

/-- C4: when the atomic execution reports insufficient funds (source
balance below the amount), the orchestrator returns no transfer and the
insufficient-funds error, the created transfer is persisted in failed
status with an error message and a failure timestamp set, and the
account rows — hence both balances — are left unchanged. -/
theorem insufficient_funds_marks_transfer_failed
    (s : Store) (inp : TransferInput) (fa ta : Account) (u1 u2 : User)
    (hamt : 0 < inp.amount)
    (hne : inp.fromAccountID ≠ inp.toAccountID)
    (hfind : s.findTransferByKey inp.idempotencyKey = none)
    (hfa : s.getAccount inp.fromAccountID = some fa)
    (hta : s.getAccount inp.toAccountID = some ta)
    (hown : fa.userID = inp.userID)
    (hact1 : fa.IsActive = true)
    (hact2 : ta.IsActive = true)
    (hu1 : s.getUser inp.userID = some u1)
    (hu2 : s.getUser ta.userID = some u2)
    (hlock : s.lockAvailable = true)
    (hbal : fa.balance < inp.amount) :
    (TransferBetweenAccounts s inp).1 = .error .insufficientFunds ∧
    ((TransferBetweenAccounts s inp).2).findTransferByKey inp.idempotencyKey =
      some ((mkPendingTransfer s inp).Fail TransferError.insufficientFunds.text s.now) ∧
    ((mkPendingTransfer s inp).Fail TransferError.insufficientFunds.text s.now).status
      = TStatus.failed ∧
    (((mkPendingTransfer s inp).Fail
        TransferError.insufficientFunds.text s.now).errorMessage).isSome = true ∧
    (((mkPendingTransfer s inp).Fail
        TransferError.insufficientFunds.text s.now).failedAt).isSome = true ∧
    ((TransferBetweenAccounts s inp).2).accounts = s.accounts ∧
    ((TransferBetweenAccounts s inp).2).transactions = s.transactions := by
  have hbe : (inp.fromAccountID == inp.toAccountID) = false := by
    simp [hne]
  have hbu : (fa.userID == inp.userID) = true := by
    simp [hown]
  simp only [Store.findTransferByKey] at hfind
  simp only [Store.getAccount] at hfa hta
  simp only [Store.getUser] at hu1 hu2
  refine ⟨?_, ?_, rfl, rfl, rfl, ?_, ?_⟩ <;>
    simp [TransferBetweenAccounts, not_le.mpr hamt, hbe, hfind, hfa, hta, hbu,
      hact1, hact2, hu1, hu2, hlock, ExecuteAtomicTransfer, hbal,
      Store.findTransferByKey, Store.getAccount, Store.getUser, Store.updateTransfer,
      Store.createTransfer, Store.withEvents, Store.audit, mkPendingTransfer,
      Transfer.Fail, List.find?]

/-- A source account holding fifty, below the attempted amount. -/
def srcLowBalance : Account :=
  { id := 1, userID := 7, balance := 50, status := AccountStatus.active }

/-- A destination account holding two hundred. -/
def dstAccount : Account :=
  { id := 2, userID := 8, balance := 200, status := AccountStatus.active }

/-- The owner of the source account. -/
def srcUser : User := { id := 7, isAdmin := false }

/-- The owner of the destination account. -/
def dstUser : User := { id := 8, isAdmin := false }

/-- Store for the insufficient-funds scenario of the spec: source
balance fifty, destination two hundred. -/
def insufficientStore : Store :=
  { accounts := [srcLowBalance, dstAccount]
    users := [srcUser, dstUser]
    transfers := []
    transactions := []
    auditLogs := 0
    nextTransferId := 10
    nextTxId := 20
    now := 5
    lockAvailable := true
    events := [] }

/-- A transfer of one thousand from the account holding fifty. -/
def inpInsufficient : TransferInput :=
  { fromAccountID := 1
    toAccountID := 2
    amount := 1000
    description := "d"
    idempotencyKey := "k"
    currency := "USD"
    transferType := "transfer"
    direction := "internal"
    userID := 7
    callerIsAdmin := false }

/-- Witness for C4: the insufficient-funds scenario evaluated on
concrete data — error returned, failed transfer persisted, accounts
untouched. -/
theorem insufficient_funds_marks_transfer_failed_witness :
    (TransferBetweenAccounts insufficientStore inpInsufficient).1 =
      .error .insufficientFunds ∧
    ((TransferBetweenAccounts insufficientStore inpInsufficient).2).findTransferByKey "k" =
      some ((mkPendingTransfer insufficientStore inpInsufficient).Fail
        TransferError.insufficientFunds.text insufficientStore.now) ∧
    ((TransferBetweenAccounts insufficientStore inpInsufficient).2).accounts =
      insufficientStore.accounts :=
  have h := insufficient_funds_marks_transfer_failed insufficientStore inpInsufficient
    srcLowBalance dstAccount srcUser dstUser
    (by decide) (by decide) (by decide) (by decide) (by decide) rfl rfl rfl
    (by decide) (by decide) rfl (by decide)
  ⟨h.1, h.2.1, h.2.2.2.2.2.1⟩

/-- C5: for a pending transfer whose gateway status is completed, the
worker runs the completion logic: it re-reads both accounts; if either
is no longer active, or the source balance is below the amount, it
persists the transfer as failed with the descriptive reason and raises
no error (hence no retry); only when both accounts are active and the
funds suffice does it invoke the atomic execution and persist the
transfer as completed with the two produced transaction identifiers. -/
theorem reconciliation_completed_transfer_validation
    (gw : String → Option String) (s : Store) (t : Transfer) (fa ta : Account)
    (hgw : gw t.transferId = some TransferStatusCompleted)
    (hfa : s.getAccount t.fromAccountID = some fa)
    (hta : s.getAccount t.toAccountID = some ta) :
    MonitorPendingTransfers gw s t = (.ok (), (checkAndUpdateTransferStatus s t).2) ∧
    Effect.getAccount t.fromAccountID ∈ (checkAndUpdateTransferStatus s t).2.events ∧
    Effect.getAccount t.toAccountID ∈ (checkAndUpdateTransferStatus s t).2.events ∧
    ((fa.IsActive && ta.IsActive) = false →
      checkAndUpdateTransferStatus s t =
        (.ok (),
         (s.withEvents [Effect.getAccount t.fromAccountID, Effect.getAccount t.toAccountID]).updateTransfer
           (t.Fail "One or more accounts are no longer active" s.now))) ∧
    ((fa.IsActive && ta.IsActive) = true → fa.balance < t.amount →
      checkAndUpdateTransferStatus s t =
        (.ok (),
         (s.withEvents [Effect.getAccount t.fromAccountID, Effect.getAccount t.toAccountID]).updateTransfer
           (t.Fail "Insufficient funds" s.now))) ∧
    ((fa.IsActive && ta.IsActive) = true → ¬ fa.balance < t.amount →
      (checkAndUpdateTransferStatus s t).1 = .ok () ∧
      (checkAndUpdateTransferStatus s t).2.transfers =
        s.transfers.map (fun u =>
          if u.id == t.id then t.Complete s.nextTxId (s.nextTxId + 1) else u) ∧
      Effect.executeAtomic t.fromAccountID t.toAccountID ∈
        (checkAndUpdateTransferStatus s t).2.events) := by
  simp only [Store.getAccount] at hfa hta
  refine ⟨?_, ?_, ?_, fun h1 => ?_, fun h1 h2 => ?_, fun h1 h2 => ?_⟩
  · simp [MonitorPendingTransfers, hgw]
  · by_cases h1 : (fa.IsActive && ta.IsActive) = true <;>
      by_cases h2 : fa.balance < t.amount <;>
      simp [checkAndUpdateTransferStatus, failTransfer, ExecuteAtomicTransfer,
        Store.getAccount, Store.updateTransfer, Store.withEvents, Store.audit,
        hfa, hta, h1, h2] at *
  · by_cases h1 : (fa.IsActive && ta.IsActive) = true <;>
      by_cases h2 : fa.balance < t.amount <;>
      simp [checkAndUpdateTransferStatus, failTransfer, ExecuteAtomicTransfer,
        Store.getAccount, Store.updateTransfer, Store.withEvents, Store.audit,
        hfa, hta, h1, h2] at *
  · simp [checkAndUpdateTransferStatus, failTransfer, Store.getAccount,
      Store.withEvents, hfa, hta, h1]
  · simp [checkAndUpdateTransferStatus, failTransfer, Store.getAccount,
      Store.withEvents, hfa, hta, h1, h2]
  · refine ⟨?_, ?_, ?_⟩ <;>
      simp [checkAndUpdateTransferStatus, failTransfer, ExecuteAtomicTransfer,
        Store.getAccount, Store.updateTransfer, Store.withEvents, Store.audit,
        Transfer.Complete, hfa, hta, h1, h2]

/-- A pending transfer with external identifier ext-1, as picked up by
the reconciliation loop. -/
def monTransfer : Transfer :=
  { id := 40
    fromAccountID := 1
    toAccountID := 2
    amount := 100
    idempotencyKey := "mk"
    referenceNumber := "r"
    transferId := "ext-1"
    status := TStatus.pending
    debitTransactionID := none
    creditTransactionID := none
    errorMessage := none
    failedAt := none
    description := "md"
    currency := "USD" }

/-- A source account holding five hundred, active. -/
def srcRich : Account :=
  { id := 1, userID := 7, balance := 500, status := AccountStatus.active }

/-- Store for the reconciliation scenario, both accounts active and the
source funded. -/
def monStore : Store :=
  { accounts := [srcRich, dstAccount]
    users := [srcUser, dstUser]
    transfers := [monTransfer]
    transactions := []
    auditLogs := 0
    nextTransferId := 50
    nextTxId := 60
    now := 9
    lockAvailable := true
    events := [] }

/-- The same store with the source account no longer active. -/
def monStoreInactive : Store :=
  { monStore with
    accounts := [{ srcRich with status := AccountStatus.inactive }, dstAccount] }

/-- A gateway reporting every transfer as completed. -/
def gwAlwaysCompleted : String → Option String := fun _ => some "completed"

/-- Witness for C5: on the funded active store the worker completes the
transfer with the two produced transaction identifiers; on the inactive
store it persists the transfer as failed with the descriptive reason
and no error. -/
theorem reconciliation_completed_transfer_validation_witness :
    ((checkAndUpdateTransferStatus monStore monTransfer).1 = .ok () ∧
     (checkAndUpdateTransferStatus monStore monTransfer).2.transfers =
       monStore.transfers.map (fun u =>
         if u.id == monTransfer.id then
           monTransfer.Complete monStore.nextTxId (monStore.nextTxId + 1)
         else u) ∧
     Effect.executeAtomic monTransfer.fromAccountID monTransfer.toAccountID ∈
       (checkAndUpdateTransferStatus monStore monTransfer).2.events) ∧
    checkAndUpdateTransferStatus monStoreInactive monTransfer =
      (.ok (),
       (monStoreInactive.withEvents
          [Effect.getAccount monTransfer.fromAccountID,
           Effect.getAccount monTransfer.toAccountID]).updateTransfer
         (monTransfer.Fail "One or more accounts are no longer active"
           monStoreInactive.now)) :=
  have h1 := reconciliation_completed_transfer_validation gwAlwaysCompleted
    monStore monTransfer srcRich dstAccount rfl rfl rfl
  have h2 := reconciliation_completed_transfer_validation gwAlwaysCompleted
    monStoreInactive monTransfer { srcRich with status := AccountStatus.inactive }
    dstAccount rfl rfl rfl
  ⟨h1.2.2.2.2.2 rfl (by decide), h2.2.2.2.1 rfl⟩

/-- Number of attempt events in a concatenation is the sum over the
parts. -/
theorem countAttempts_append (l1 l2 : List NotifyEvent) :
    countAttempts (l1 ++ l2) = countAttempts l1 + countAttempts l2 := by
  simp [countAttempts, List.filter_append]

/-- The retry loop performs at most fuel-many further webhook
attempts. -/
theorem notifyGo_attempts_le (env : NotifyEnv) (t : Int) :
    ∀ fuel attempt elapsed log,
      countAttempts (notifyGo env t fuel attempt elapsed log) ≤ countAttempts log + fuel := by
  intro fuel
  induction fuel with
  | zero =>
    intro a e l
    simp [notifyGo]
  | succ n ih =>
    intro a e l
    simp only [notifyGo]
    by_cases h : (t - e ≤ 0)
    · simp [h, countAttempts_append, countAttempts]
    · simp only [h, if_false]
      by_cases h2 : env.ok a
      · simp [h2, countAttempts_append, countAttempts]
      · simp only [h2, if_false, Bool.false_eq_true]
        calc countAttempts (notifyGo env t n (a + 1)
                (e + (env.dur a : Int) + min (a : Int) (t - e))
                ((l ++ [NotifyEvent.attemptPerformed a]) ++
                  [NotifyEvent.auditFailure a, NotifyEvent.slept (min (a : Int) (t - e))]))
            ≤ countAttempts ((l ++ [NotifyEvent.attemptPerformed a]) ++
                [NotifyEvent.auditFailure a, NotifyEvent.slept (min (a : Int) (t - e))]) + n :=
              ih _ _ _
          _ = countAttempts l + (n + 1) := by
              simp [countAttempts_append, countAttempts]
              omega

/-- C6: the notifier delivery loop performs at most five webhook
attempts under its configured ceiling; before each attempt, when the
sixty-second budget is exhausted it stops and records only the timeout
outcome; a failed attempt records the failure and sleeps attempt-many
seconds capped at the remaining budget before the next iteration; and a
successful attempt records the success and terminates the loop
immediately. -/
theorem notify_regulator_bounded_retry (env : NotifyEnv) :
    countAttempts (NotifyRegulator env) ≤ 5 ∧
    (∀ fuel attempt (elapsed : Int) log, 60 ≤ elapsed →
      notifyGo env 60 (fuel + 1) attempt elapsed log =
        log ++ [NotifyEvent.auditTimeout]) ∧
    (∀ fuel attempt (elapsed : Int) log, elapsed < 60 → env.ok attempt = false →
      notifyGo env 60 (fuel + 1) attempt elapsed log =
        notifyGo env 60 fuel (attempt + 1)
          (elapsed + (env.dur attempt : Int) + min (attempt : Int) (60 - elapsed))
          ((log ++ [NotifyEvent.attemptPerformed attempt]) ++
            [NotifyEvent.auditFailure attempt,
             NotifyEvent.slept (min (attempt : Int) (60 - elapsed))])) ∧
    (∀ fuel attempt (elapsed : Int) log, elapsed < 60 → env.ok attempt = true →
      notifyGo env 60 (fuel + 1) attempt elapsed log =
        (log ++ [NotifyEvent.attemptPerformed attempt]) ++
          [NotifyEvent.auditSuccess attempt]) := by
  refine ⟨?_, ?_, ?_, ?_⟩
  · have h := notifyGo_attempts_le env 60 5 1 0 []
    simpa [NotifyRegulator, countAttempts] using h
  · intro fuel a e l h
    have hc : (60 : Int) - e ≤ 0 := by omega
    simp [notifyGo, hc]
  · intro fuel a e l h hok
    have hc : ¬ ((60 : Int) - e ≤ 0) := by omega
    simp [notifyGo, hc, hok]
  · intro fuel a e l h hok
    have hc : ¬ ((60 : Int) - e ≤ 0) := by omega
    simp [notifyGo, hc, hok]

/-- An environment whose webhook delivery fails on the first attempt
and succeeds on the second, each attempt taking no measurable time. -/
def envRetryTwice : NotifyEnv :=
  { ok := fun a => a == 2, dur := fun _ => 0 }

/-- Witness for C6: the bounded-retry theorem evaluated on the concrete
retry-twice environment — the attempt bound, an exhausted-budget stop,
a failed first attempt with its one-second backoff, and an immediately
terminating successful second attempt. -/
theorem notify_regulator_bounded_retry_witness :
    countAttempts (NotifyRegulator envRetryTwice) ≤ 5 ∧
    notifyGo envRetryTwice 60 3 1 60 [] = [] ++ [NotifyEvent.auditTimeout] ∧
    notifyGo envRetryTwice 60 3 1 0 [] =
      notifyGo envRetryTwice 60 2 2 (0 + (envRetryTwice.dur 1 : Int) + min (1 : Int) (60 - 0))
        (([] ++ [NotifyEvent.attemptPerformed 1]) ++
          [NotifyEvent.auditFailure 1, NotifyEvent.slept (min (1 : Int) (60 - 0))]) ∧
    notifyGo envRetryTwice 60 3 2 1 [] =
      ([] ++ [NotifyEvent.attemptPerformed 2]) ++ [NotifyEvent.auditSuccess 2] :=
  have h := notify_regulator_bounded_retry envRetryTwice
  ⟨h.1, h.2.1 2 1 60 [] (by decide), h.2.2.1 2 1 0 [] (by decide) rfl,
   h.2.2.2 2 2 1 [] (by decide) rfl⟩

/-- C7: the status-polling phase stops and returns the reported status
as soon as the gateway answers a terminal (completed or failed) status;
a request error or a non-terminal answer merely advances the loop; a
gateway that never answers a terminal status polls until the deadline
and yields pending, as does an elapsed deadline itself; and in the
deadline-elapsed case the monitoring flow still attempts regulator
notification, with the success flag false, rather than suppressing
it. -/
theorem poll_terminal_or_pending_then_notify (gw : Nat → Option String) :
    (∀ fuel i st, gw i = some st → isTerminalStatus st = true →
      pollGo gw (fuel + 1) i = st) ∧
    (∀ fuel i, gw i = none → pollGo gw (fuel + 1) i = pollGo gw fuel (i + 1)) ∧
    (∀ fuel i st, gw i = some st → isTerminalStatus st = false →
      pollGo gw (fuel + 1) i = pollGo gw fuel (i + 1)) ∧
    (∀ i, pollGo gw 0 i = TransferStatusPending) ∧
    ((∀ j st, gw j = some st → isTerminalStatus st = false) →
      ∀ fuel i, pollGo gw fuel i = TransferStatusPending) ∧
    (∀ fuel, PollTransferStatus gw fuel = TransferStatusPending →
      StartMonitoring gw fuel =
        { finalStatus := TransferStatusPending
          auditLogged := true
          notifyAttempted := true
          notifySuccessFlag := false }) := by
  refine ⟨?_, ?_, ?_, ?_, ?_, ?_⟩
  · intro fuel i st h ht
    simp [pollGo, h, ht]
  · intro fuel i h
    simp [pollGo, h]
  · intro fuel i st h ht
    simp [pollGo, h, ht]
  · intro i
    simp [pollGo]
  · intro hnever fuel
    induction fuel with
    | zero => intro i; simp [pollGo]
    | succ n ih =>
      intro i
      rcases hg : gw i with _ | st
      · simp [pollGo, hg, ih]
      · simp [pollGo, hg, hnever i st hg, ih]
  · intro fuel h
    simp [StartMonitoring, h, TransferStatusPending, TransferStatusCompleted]

/-- A gateway that reports a non-terminal validated status on the first
poll and completed on the second. -/
def gwLateCompleted : Nat → Option String := fun i =>
  if i == 0 then some "validated" else some "completed"

/-- A gateway whose requests always error. -/
def gwAlwaysErr : Nat → Option String := fun _ => none

/-- Witness for C7: the concrete gateway reaches completed on the
second poll; the always-erroring gateway exhausts the deadline, yields
pending, and monitoring still attempts notification with the success
flag false. -/
theorem poll_terminal_or_pending_then_notify_witness :
    pollGo gwLateCompleted 3 1 = "completed" ∧
    pollGo gwAlwaysErr 0 0 = TransferStatusPending ∧
    (∀ fuel i, pollGo gwAlwaysErr fuel i = TransferStatusPending) ∧
    StartMonitoring gwAlwaysErr 4 =
      { finalStatus := TransferStatusPending
        auditLogged := true
        notifyAttempted := true
        notifySuccessFlag := false } :=
  have h := poll_terminal_or_pending_then_notify gwLateCompleted
  have h2 := poll_terminal_or_pending_then_notify gwAlwaysErr
  have hnever : ∀ j st, gwAlwaysErr j = some st → isTerminalStatus st = false := by
    intro j st hj
    simp [gwAlwaysErr] at hj
  ⟨h.1 2 1 "completed" rfl (by decide), h2.2.2.2.1 0,
   h2.2.2.2.2.1 hnever,
   h2.2.2.2.2.2 4 (h2.2.2.2.2.1 hnever 4 0)⟩

end Bank
